import Mathlib

/-!
Verification development for the faktura-automation webhook pipeline
(src/index.js).  The JavaScript source is shallowly embedded below:
pure computations become Lean functions, the stateful webhook handler
becomes a pure function from an explicit environment (the remote file
store, download/parse results, clock values) to a response paired with
the ordered list of remote-store effects it performs.  JavaScript
numbers that can be NaN are modelled by `JsNum` (a rational or NaN),
machine-independent integers by `Int`/`Nat`.
-/

namespace Faktura

/-! ### SHA-256 and HMAC (node `crypto.createHmac('sha256', secret)`)

The webhook handler computes the hex HMAC-SHA256 of the raw request
body keyed by the app secret (src/index.js lines 262-265).  The node
`crypto` library is embedded here bit-for-bit: 32-bit words are `Nat`
values kept below 2^32 by explicit truncation. -/

/-- Truncate to a 32-bit word. -/
def w32 (n : Nat) : Nat := n % 4294967296

/-- Right rotation of a 32-bit word. -/
def rotr32 (n x : Nat) : Nat := w32 ((x >>> n) ||| (x <<< (32 - n)))

/-- SHA-256 choice function. -/
def shaCh (x y z : Nat) : Nat := (x &&& y) ^^^ ((x ^^^ 4294967295) &&& z)

/-- SHA-256 majority function. -/
def shaMaj (x y z : Nat) : Nat := (x &&& y) ^^^ (x &&& z) ^^^ (y &&& z)

/-- SHA-256 big sigma 0. -/
def shaS0 (x : Nat) : Nat := rotr32 2 x ^^^ rotr32 13 x ^^^ rotr32 22 x

/-- SHA-256 big sigma 1. -/
def shaS1 (x : Nat) : Nat := rotr32 6 x ^^^ rotr32 11 x ^^^ rotr32 25 x

/-- SHA-256 small sigma 0. -/
def shaG0 (x : Nat) : Nat := rotr32 7 x ^^^ rotr32 18 x ^^^ (x >>> 3)

/-- SHA-256 small sigma 1. -/
def shaG1 (x : Nat) : Nat := rotr32 17 x ^^^ rotr32 19 x ^^^ (x >>> 10)

/-- The 64 SHA-256 round constants (FIPS 180-4), written in
decimal. -/
def shaK : List Nat :=
  [1116352408, 1899447441, 3049323471, 3921009573, 961987163,
   1508970993, 2453635748, 2870763221, 3624381080, 310598401,
   607225278, 1426881987, 1925078388, 2162078206, 2614888103,
   3248222580, 3835390401, 4022224774, 264347078, 604807628,
   770255983, 1249150122, 1555081692, 1996064986, 2554220882,
   2821834349, 2952996808, 3210313671, 3336571891, 3584528711,
   113926993, 338241895, 666307205, 773529912, 1294757372,
   1396182291, 1695183700, 1986661051, 2177026350, 2456956037,
   2730485921, 2820302411, 3259730800, 3345764771, 3516065817,
   3600352804, 4094571909, 275423344, 430227734, 506948616,
   659060556, 883997877, 958139571, 1322822218, 1537002063,
   1747873779, 1955562222, 2024104815, 2227730452, 2361852424,
   2428436474, 2756734187, 3204031479, 3329325298]

/-- The eight 32-bit state words of a SHA-256 computation. -/
structure Sha8 where
  a : Nat
  b : Nat
  c : Nat
  d : Nat
  e : Nat
  f : Nat
  g : Nat
  hh : Nat
deriving DecidableEq

/-- One SHA-256 round; `kw` is the (truncated) sum of the round
constant and the schedule word. -/
def shaRound (st : Sha8) (kw : Nat) : Sha8 :=
  let t1 := w32 (st.hh + shaS1 st.e + shaCh st.e st.f st.g + kw)
  let t2 := w32 (shaS0 st.a + shaMaj st.a st.b st.c)
  ⟨w32 (t1 + t2), st.a, st.b, st.c, w32 (st.d + t1), st.e, st.f, st.g⟩

/-- Extend the 16 block words by `k` further message-schedule words. -/
def shaExtend : Nat → List Nat → List Nat
  | 0, ws => ws
  | k + 1, ws =>
    let ws2 := shaExtend k ws
    let n := ws2.length
    ws2 ++ [w32 (ws2.getD (n - 16) 0 + shaG0 (ws2.getD (n - 15) 0) +
      ws2.getD (n - 7) 0 + shaG1 (ws2.getD (n - 2) 0))]

/-- SHA-256 compression of one 16-word block into the running state. -/
def shaCompress (st : Sha8) (block : List Nat) : Sha8 :=
  let ws := shaExtend 48 block
  let kws := List.zipWith (fun k w => w32 (k + w)) shaK ws
  let st2 := kws.foldl shaRound st
  ⟨w32 (st.a + st2.a), w32 (st.b + st2.b), w32 (st.c + st2.c), w32 (st.d + st2.d),
   w32 (st.e + st2.e), w32 (st.f + st2.f), w32 (st.g + st2.g), w32 (st.hh + st2.hh)⟩

/-- SHA-256 initial state (FIPS 180-4), written in decimal. -/
def shaInit : Sha8 :=
  ⟨1779033703, 3144134277, 1013904242, 2773480762,
   1359893119, 2600822924, 528734635, 1541459225⟩

/-- `k` big-endian bytes of `n`. -/
def beBytes : Nat → Nat → List Nat
  | 0, _ => []
  | k + 1, n => beBytes k (n / 256) ++ [n % 256]

/-- SHA-256 padding: append 0x80, zeros, and the 64-bit bit length. -/
def padBytes (msg : List Nat) : List Nat :=
  let len := msg.length
  let zeros := (119 - len % 64) % 64
  msg ++ (128 :: List.replicate zeros 0) ++ beBytes 8 (len * 8)

/-- Group bytes four at a time into big-endian 32-bit words. -/
def wordsOfBytes : List Nat → List Nat
  | b0 :: b1 :: b2 :: b3 :: rest =>
    (((b0 * 256 + b1) * 256 + b2) * 256 + b3) :: wordsOfBytes rest
  | _ => []

/-- Split a padded byte list into `k` blocks of 16 words. -/
def shaBlocks : Nat → List Nat → List (List Nat)
  | 0, _ => []
  | k + 1, l => wordsOfBytes (l.take 64) :: shaBlocks k (l.drop 64)

/-- SHA-256 of a byte list, as 32 bytes. -/
def sha256 (msg : List Nat) : List Nat :=
  let padded := padBytes msg
  let blocks := shaBlocks (padded.length / 64) padded
  let st := blocks.foldl shaCompress shaInit
  ([st.a, st.b, st.c, st.d, st.e, st.f, st.g, st.hh]).foldr
    (fun w acc => beBytes 4 w ++ acc) []

/-- Lowercase hex digit. -/
def hexDigit (n : Nat) : Char := Char.ofNat (if n < 10 then 48 + n else 87 + n)

/-- Lowercase hex encoding of a byte list (node `digest('hex')`). -/
def hexOfBytes (bs : List Nat) : String :=
  String.mk (bs.foldr (fun b acc => hexDigit (b / 16) :: hexDigit (b % 16) :: acc) [])

/-- UTF-8 encoding of one character. -/
def utf8Char (c : Char) : List Nat :=
  let n := c.toNat
  if n < 128 then [n]
  else if n < 2048 then [192 + n / 64, 128 + n % 64]
  else if n < 65536 then [224 + n / 4096, 128 + (n / 64) % 64, 128 + n % 64]
  else [240 + n / 262144, 128 + (n / 4096) % 64, 128 + (n / 64) % 64, 128 + n % 64]

/-- UTF-8 bytes of a string (node strings are hashed as UTF-8). -/
def utf8Bytes (s : String) : List Nat :=
  s.toList.foldr (fun c acc => utf8Char c ++ acc) []

/-- HMAC-SHA256 over byte lists (RFC 2104, block size 64). -/
def hmacSha256Bytes (key msg : List Nat) : List Nat :=
  let k0 := if 64 < key.length then sha256 key else key
  let kp := k0 ++ List.replicate (64 - k0.length) 0
  sha256 ((kp.map (fun b => b ^^^ 92)) ++ sha256 ((kp.map (fun b => b ^^^ 54)) ++ msg))

/-- The expected webhook signature: hex HMAC-SHA256 of the raw body
keyed by the app secret (src/index.js lines 262-265). -/
def hmacSha256Hex (secret body : String) : String :=
  hexOfBytes (hmacSha256Bytes (utf8Bytes secret) (utf8Bytes body))

/-- The signature comparison of src/index.js line 267: the supplied
`x-dropbox-signature` header (absent headers are `undefined`, modelled
as `none`) must equal the expected hex digest exactly. -/
def verifySignature (secret rawBody : String) (sig : Option String) : Bool :=
  sig == some (hmacSha256Hex secret rawBody)

/-! ### String primitives

The JavaScript string methods used by the pipeline, modelled on the
character level (`Char.toLower` lowercases exactly the ASCII letters,
which covers the ASCII file names and fields this pipeline sees). -/

/-- JS `String.prototype.toLowerCase`. -/
def strToLower (s : String) : String := String.mk (s.toList.map Char.toLower)

/-- JS `String.prototype.endsWith`: exact (case-sensitive) suffix
test. -/
def strEndsWith (s t : String) : Bool := t.toList.isSuffixOf s.toList

/-- Drop the last `n` characters; used for the regex replace of a
matched suffix. -/
def strDropRight (n : Nat) (s : String) : String :=
  String.mk (s.toList.take (s.toList.length - n))

/-- JS `String.prototype.trim`: remove leading and trailing
whitespace. -/
def jsTrim (s : String) : String :=
  String.mk (((s.toList.dropWhile Char.isWhitespace).reverse.dropWhile Char.isWhitespace).reverse)

/-- Worker for `splitChar`; `acc` holds the current segment
reversed. -/
def splitCharAux (sep : Char) : List Char → List Char → List String
  | [], acc => [String.mk acc.reverse]
  | c :: cs, acc =>
    if c = sep then String.mk acc.reverse :: splitCharAux sep cs []
    else splitCharAux sep cs (c :: acc)

/-- JS `s.split(sep)` for a one-character separator: every occurrence
of `sep` starts a new segment, and `""` splits to `[""]`. -/
def splitChar (sep : Char) (s : String) : List String := splitCharAux sep s.toList []

/-! ### Record transformation (src/index.js lines 308-326) -/

/-- JS `parseInt(s, 10)`: skip leading whitespace, optional sign,
longest ASCII digit prefix; `none` models NaN (no digits found). -/
def jsParseInt10 (s : String) : Option Int :=
  let cs := s.toList.dropWhile Char.isWhitespace
  let neg : Bool := cs.head? == some '-'
  let body := if cs.head? = some '-' ∨ cs.head? = some '+' then cs.tail else cs
  let ds := body.takeWhile Char.isDigit
  if ds.isEmpty then none
  else
    let mag : Nat := ds.foldl (fun acc c => acc * 10 + (c.toNat - 48)) 0
    some (if neg then -(mag : Int) else (mag : Int))

/-- `parseInt(item.amount, 10) || 0` (src/index.js line 319).  An
absent field is `undefined`, which parseInt coerces to the string
"undefined", giving NaN; `|| 0` turns NaN (and 0 itself) into 0. -/
def amountOf (v : Option String) : Int :=
  match v with
  | none => 0
  | some s => (jsParseInt10 s).getD 0

/-- A JavaScript number that may be NaN; finite values are modelled as
rationals, which is exact for every decimal string arising here. -/
inductive JsNum where
  | nan
  | num (q : Rat)
deriving DecidableEq

/-- JS `parseFloat` on the strings reachable from `parseNumber`
(digits, commas and at most one period): the longest prefix of shape
`digits ['.' digits]` containing at least one digit; NaN otherwise.
The general parseFloat also accepts signs, exponents and leading
whitespace, none of which survive the character strip in
`parseNumber`. -/
def jsParseFloat (s : String) : JsNum :=
  let cs := s.toList
  let intPart := cs.takeWhile Char.isDigit
  let rest := cs.drop intPart.length
  let fracPart :=
    match rest with
    | '.' :: r => r.takeWhile Char.isDigit
    | _ => []
  if intPart.isEmpty && fracPart.isEmpty then JsNum.nan
  else
    let iv : Nat := intPart.foldl (fun acc c => acc * 10 + (c.toNat - 48)) 0
    let fv : Nat := fracPart.foldl (fun acc c => acc * 10 + (c.toNat - 48)) 0
    JsNum.num (mkRat (iv * 10 ^ fracPart.length + fv) (10 ^ fracPart.length))

/-- JS `str.replace(',', '.')` with a string pattern replaces only the
FIRST occurrence. -/
def replaceFirstComma : List Char → List Char
  | [] => []
  | c :: rest => if c = ',' then '.' :: rest else c :: replaceFirstComma rest

/-- The `parseNumber` helper (src/index.js lines 309-312):
`str.replace(/[^0-9,]/g, '').replace(',', '.')` keeps digits and
commas and replaces the first comma with a period; the result goes to
parseFloat unless it is empty (`cleaned ? parseFloat(cleaned) : 0`).
NaN from parseFloat is returned as-is. -/
def parseNumber (str : String) : JsNum :=
  let cleanedChars := str.toList.filter (fun c => c.isDigit || c = ',')
  let cleaned := String.mk (replaceFirstComma cleanedChars)
  if cleaned = "" then JsNum.num 0 else jsParseFloat cleaned

/-- One parsed CSV row: normalized header key to trimmed value; a row
shorter than the header leaves keys absent (`undefined`). -/
structure RawCsvRecord where
  product_id : Option String
  style : Option String
  name : Option String
  size : Option String
  amount : Option String
  locations : Option String
  purchase_price_dkk : Option String
  rrp : Option String
  tariff_code : Option String
  country_of_origin : Option String
deriving DecidableEq

/-- The typed product record built by the transformer. -/
structure ProductRecord where
  fileName : String
  productId : Option String
  style : Option String
  productName : Option String
  size : Option String
  amount : Int
  locations : List String
  purchasePriceDKK : JsNum
  rrp : JsNum
  tariffCode : Option String
  countryOfOrigin : Option String
deriving DecidableEq

/-- One step of `parsedData.map(item => ...)` (src/index.js lines
313-325).  Calling `.split` or `.replace` on an absent (undefined)
field throws a TypeError, modelled as `Except.error`; object literal
fields evaluate top to bottom, so `locations` throws first, then
`purchase_price_dkk`, then `rrp`.  All other fields tolerate absence. -/
def transformRecord (fileName : String) (item : RawCsvRecord) : Except String ProductRecord :=
  match item.locations with
  | none => Except.error "TypeError: item.locations is undefined"
  | some locStr =>
    match item.purchase_price_dkk with
    | none => Except.error "TypeError: item.purchase_price_dkk is undefined"
    | some ppd =>
      match item.rrp with
      | none => Except.error "TypeError: item.rrp is undefined"
      | some rrpStr =>
        Except.ok
          ⟨fileName, item.product_id, item.style, item.name, item.size,
           amountOf item.amount, (splitChar '-' locStr).map jsTrim,
           parseNumber ppd, parseNumber rrpStr, item.tariff_code, item.country_of_origin⟩

/-! ### File discovery (src/index.js lines 279-301) -/

/-- A `files/list_folder` entry as used by the handler. -/
structure RemoteFileEntry where
  tag : String
  name : String
  server_modified : Nat
  path_display : String
deriving DecidableEq

/-- The filter of src/index.js line 291: kind file, name ending in
".csv" case-insensitively. -/
def isCsvFile (e : RemoteFileEntry) : Bool :=
  e.tag == "file" && strEndsWith (strToLower e.name) ".csv"

/-- The comparator of line 292 orders by `server_modified` descending;
`a` may stay before `b` exactly when `a` is at least as recent. -/
def newerFirst (a b : RemoteFileEntry) : Bool :=
  decide (b.server_modified ≤ a.server_modified)

/-- Lines 290-292: filter to CSV files, then sort newest first.
JS `Array.prototype.sort` is stable (ES2019), modelled by a stable
merge sort. -/
def sortCsvFiles (entries : List RemoteFileEntry) : List RemoteFileEntry :=
  (entries.filter isCsvFile).mergeSort newerFirst

/-- `csvFiles[0]` (line 300): the selected target file, if any. -/
def selectNewestCsv (entries : List RemoteFileEntry) : Option RemoteFileEntry :=
  (sortCsvFiles entries).head?

/-! ### Invoice assembly (src/index.js lines 137-209) -/

/-- `fileName.replace(/\.csv$/, '')` (line 147): strip one trailing
case-sensitive ".csv". -/
def stripCsvSuffix (name : String) : String :=
  if strEndsWith name ".csv" then strDropRight 4 name else name

/-- A value written into a worksheet cell. -/
inductive CellVal where
  | str (v : String)
  | int (v : Int)
  | num (v : JsNum)
deriving DecidableEq

/-- One cell write; `col` 0 is column A, `row` is the 1-based
spreadsheet row. -/
structure CellWrite where
  col : Nat
  row : Nat
  val : CellVal
deriving DecidableEq

/-- The write for one aoa slot holding an optional string: absent
(undefined) values are skipped by `sheet_add_aoa`. -/
def optCell (c r : Nat) (v : Option String) : List CellWrite :=
  match v with
  | some s => [⟨c, r, CellVal.str s⟩]
  | none => []

/-- The aoa row written for one product at spreadsheet row `r` (lines
153-165): columns A,B,C,E,F; the literal `null` in column D, and any
undefined string field, are skipped by `sheet_add_aoa`. -/
def productCells (r : Nat) (p : ProductRecord) : List CellWrite :=
  optCell 0 r p.productId ++ optCell 1 r p.style ++ optCell 2 r p.productName ++
  [⟨4, r, CellVal.int p.amount⟩, ⟨5, r, CellVal.num p.rrp⟩]

/-- `products.forEach((product, index) => ...)` writing row
`13 + index` for the product at `index` (lines 153-165), here with the
starting row made explicit. -/
def productRowsFrom (r : Nat) : List ProductRecord → List CellWrite
  | [] => []
  | p :: ps => productCells r p ++ productRowsFrom (r + 1) ps

/-- All cell writes of `generateInvoiceFile` (lines 143-165): the
customer name (fileName of the first product with ".csv" stripped)
into B5, then one row per product from row 13.  The function is only
reached with a non-empty list (line 330 guards `products.length > 0`);
the empty case is unreachable and performs no writes. -/
def invoiceCellWrites (products : List ProductRecord) : List CellWrite :=
  match products with
  | [] => []
  | p0 :: _ => ⟨1, 5, CellVal.str (stripCsvSuffix p0.fileName)⟩ :: productRowsFrom 13 products

/-- Final content of a cell after a write sequence (later writes win,
as with repeated `sheet_add_aoa`); `none` means the cell was never
written and keeps its template content. -/
def cellAt (writes : List CellWrite) (c r : Nat) : Option CellVal :=
  ((writes.filter (fun w => w.col == c && w.row == r)).getLast?).map CellWrite.val

/-! ### The webhook handler (src/index.js lines 255-343) -/

/-- A remote-store operation performed by the handler, in order. -/
inductive Effect where
  | listFolder (path : String) (limit : Nat)
  | download (path : String)
  | parseCsv
  | upload (path : String)
  | move (fromPath toPath : String)
deriving DecidableEq

/-- An incoming POST /webhook request: the raw body bytes (captured by
the express.json verify hook) and the `x-dropbox-signature` header,
`none` when absent. -/
structure WebhookRequest where
  rawBody : String
  signature : Option String
deriving DecidableEq

/-- The HTTP response sent back to Dropbox. -/
structure WebhookResponse where
  status : Nat
  body : String
deriving DecidableEq

/-- The environment of one invocation: configuration plus the
outcomes the external world would provide.  `folderEntries` is the
listing order of the input folder as served by `files/list_folder`;
`downloadText` and `parseRows` give the results of the CSV download
and of the csv-parser stream (`none` models a rejected promise). -/
structure WebhookEnv where
  appSecret : String
  inputFolder : String
  processedFolder : String
  folderEntries : List RemoteFileEntry
  listOk : Bool
  downloadText : String → Option String
  parseRows : String → Option (List RawCsvRecord)
  templateOk : Bool
  uploadOk : Bool
  moveOk : Bool
  nowMs : Nat
  nowIso : String

/-- node `path.basename`: the segment after the last slash. -/
def basename (p : String) : String :=
  ((splitChar '/' p).getLast?).getD p

/-- Archive destination (line 86):
`PROCESSED_FOLDER/originalName_timestamp.csv`. -/
def archiveDest (env : WebhookEnv) (sourcePath : String) : String :=
  env.processedFolder ++ "/" ++ basename sourcePath ++ "_" ++ toString env.nowMs ++ ".csv"

/-- Invoice destination (lines 174-176):
`/Teamsport-Invoice/baseName_iso.xlsx`. -/
def invoiceDest (env : WebhookEnv) (baseName : String) : String :=
  "/Teamsport-Invoice/" ++ baseName ++ "_" ++ env.nowIso ++ ".xlsx"

/-- The path of the invoice template downloaded at line 140. -/
def templatePath : String := "/template/Invoice-template.xlsx"

/-- `parsedData.map(item => ...)` (line 308): rows are transformed in
order and the first TypeError aborts the whole map. -/
def transformAll (fileName : String) : List RawCsvRecord → Except String (List ProductRecord)
  | [] => Except.ok []
  | item :: rest =>
    match transformRecord fileName item with
    | Except.error e => Except.error e
    | Except.ok p =>
      match transformAll fileName rest with
      | Except.error e => Except.error e
      | Except.ok ps => Except.ok (p :: ps)

/-- The POST /webhook handler (src/index.js lines 255-343) as a pure
function from environment and request to the HTTP response and the
ordered list of remote-store operations performed.  The 2-second
settle delay touches no store.  Any rejection (listing, download,
parse, transform TypeError, template, upload, move) is caught by the
surrounding try/catch and mapped to the 500 response. -/
def runWebhook (env : WebhookEnv) (req : WebhookRequest) : WebhookResponse × List Effect :=
  if ¬ verifySignature env.appSecret req.rawBody req.signature then
    (⟨403, "Unauthorized"⟩, [])
  else
    let effList := [Effect.listFolder env.inputFolder 10]
    if ¬ env.listOk then (⟨500, "Internal server error"⟩, effList)
    else
      let listed := env.folderEntries.take 10
      match selectNewestCsv listed with
      | none => (⟨200, "No files to process"⟩, effList)
      | some target =>
        let effDl := effList ++ [Effect.download target.path_display]
        match env.downloadText target.path_display with
        | none => (⟨500, "Internal server error"⟩, effDl)
        | some content =>
          let effParse := effDl ++ [Effect.parseCsv]
          match env.parseRows content with
          | none => (⟨500, "Internal server error"⟩, effParse)
          | some rows =>
            match transformAll target.name rows with
            | Except.error _ => (⟨500, "Internal server error"⟩, effParse)
            | Except.ok products =>
              match products with
              | [] =>
                let effMove := effParse ++
                  [Effect.move target.path_display (archiveDest env target.path_display)]
                if env.moveOk then (⟨200, "Processing complete"⟩, effMove)
                else (⟨500, "Internal server error"⟩, effMove)
              | p0 :: _ =>
                let effTpl := effParse ++ [Effect.download templatePath]
                if ¬ env.templateOk then (⟨500, "Internal server error"⟩, effTpl)
                else
                  let effUp := effTpl ++
                    [Effect.upload (invoiceDest env (stripCsvSuffix p0.fileName))]
                  if ¬ env.uploadOk then (⟨500, "Internal server error"⟩, effUp)
                  else
                    let effMove := effUp ++
                      [Effect.move target.path_display (archiveDest env target.path_display)]
                    if env.moveOk then (⟨200, "Processing complete"⟩, effMove)
                    else (⟨500, "Internal server error"⟩, effMove)

/-- Recognize invoice uploads in an effect trace. -/
def isUploadEff : Effect → Bool
  | Effect.upload _ => true
  | _ => false

/-- Recognize archival moves in an effect trace. -/
def isMoveEff : Effect → Bool
  | Effect.move _ _ => true
  | _ => false

/-- True when some archival move is later followed by an invoice
upload. -/
def uploadAfterMove : List Effect → Bool
  | [] => false
  | e :: rest => (isMoveEff e && rest.any isUploadEff) || uploadAfterMove rest

/-- True when some invoice upload is later followed by an archival
move. -/
def moveAfterUpload : List Effect → Bool
  | [] => false
  | e :: rest => (isUploadEff e && rest.any isMoveEff) || moveAfterUpload rest

/-- Environment of a fully successful run used to exhibit the step
order: one CSV file in the folder and one parseable row with every
field present. -/
def envSuccess : WebhookEnv :=
  ⟨"secret", "/csv-filer", "/processed-csv-files",
   [⟨"file", "Customer.csv", 3, "/csv-filer/Customer.csv"⟩], true,
   fun _ => some "csv-text",
   fun _ => some [⟨some "P1", some "S1", some "Widget", some "M", some "10",
     some "A-B", some "100,00", some "150,00", some "8471", some "DK"⟩],
   true, true, true, 1700000000000, "2026-02-03T12-00-00-000Z"⟩

/-- A correctly signed request for `envSuccess`. -/
def reqSuccess : WebhookRequest :=
  ⟨"notification", some (hmacSha256Hex "secret" "notification")⟩

/-- A concrete product record used to instantiate the invoice-layout
statements. -/
def prodW : ProductRecord :=
  ⟨"Customer.csv", some "P1", some "S1", some "Widget", some "M", 10,
   ["A", "B"], JsNum.num (mkRat 100 1), JsNum.num (mkRat 150 1), some "8471", some "DK"⟩

/-! ### Theorems -/

/-- The signature comparison accepts the expected digest: supplying
exactly the hex HMAC-SHA256 of the body keyed by the secret
validates.  (Whether a one-byte change of the body always changes the
digest is collision resistance of HMAC-SHA256 and is not settled
here.) -/
theorem verifySignature_accepts (secret body : String) :
    verifySignature secret body (some (hmacSha256Hex secret body)) = true := by
  simp [verifySignature]

/-- The signature comparison rejects every other header value,
including a missing header. -/
theorem verifySignature_rejects (secret body : String) (t : Option String)
    (h : t ≠ some (hmacSha256Hex secret body)) :
    verifySignature secret body t = false := by
  simp [verifySignature, h]

/-- C2: a webhook request whose signature header does not equal the
expected HMAC digest gets the 403 Unauthorized response and triggers
no remote-store operation at all (no folder listing, no download, no
upload, no move) and no CSV parsing; the handler returns at once, so
the rejection is terminal within the invocation. -/
theorem c2_bad_signature_rejected (env : WebhookEnv) (req : WebhookRequest)
    (hsig : req.signature ≠ some (hmacSha256Hex env.appSecret req.rawBody)) :
    runWebhook env req = (⟨403, "Unauthorized"⟩, []) := by
  unfold runWebhook verifySignature
  simp [hsig]

/-- Witness for C2 at a concrete request with a missing signature
header. -/
theorem c2_bad_signature_rejected_witness :
    runWebhook
        ⟨"shh", "/csv-filer", "/processed-csv-files", [], true,
          fun _ => none, fun _ => none, true, true, true, 0, "ts"⟩
        ⟨"payload", none⟩
      = (⟨403, "Unauthorized"⟩, []) :=
  c2_bad_signature_rejected _ _ (by simp)

/-- C9: an authenticated invocation whose folder listing contains no
CSV file entries responds 200 "No files to process" after performing
only the folder listing: no archive move and no invoice generation or
upload occur. -/
theorem c9_no_csv_is_success (env : WebhookEnv) (req : WebhookRequest)
    (hsig : req.signature = some (hmacSha256Hex env.appSecret req.rawBody))
    (hok : env.listOk = true)
    (hnone : (env.folderEntries.take 10).filter isCsvFile = []) :
    runWebhook env req
      = (⟨200, "No files to process"⟩, [Effect.listFolder env.inputFolder 10]) := by
  unfold runWebhook verifySignature
  simp [hsig, hok, selectNewestCsv, sortCsvFiles, hnone]

/-- Witness for C9 with an empty input folder. -/
theorem c9_no_csv_is_success_witness :
    runWebhook
        ⟨"shh", "/csv-filer", "/processed-csv-files", [], true,
          fun _ => none, fun _ => none, true, true, true, 0, "ts"⟩
        ⟨"payload", some (hmacSha256Hex "shh" "payload")⟩
      = (⟨200, "No files to process"⟩, [Effect.listFolder "/csv-filer" 10]) :=
  c9_no_csv_is_success _ _ rfl rfl rfl

/-- C4: evaluating the decimal-field mapping at the claim's failure
points.  An absent purchase_price_dkk field makes the transformer
throw a TypeError (the whole request then answers 500) instead of
defaulting to 0.0, and `parseNumber ","` is NaN rather than 0.0,
because only the empty cleaned string falls back to 0; the claimed
examples for well-formed present strings do hold. -/
theorem c4_decimal_field_eval :
    transformRecord "f.csv"
        ⟨some "P1", some "S1", some "W", some "M", some "10", some "A-B",
         none, some "150,00", some "8471", some "DK"⟩
      = Except.error "TypeError: item.purchase_price_dkk is undefined" ∧
    parseNumber "," = JsNum.nan ∧
    parseNumber "123,45" = JsNum.num (mkRat 12345 100) ∧
    parseNumber "1.234,56" = JsNum.num (mkRat 123456 100) ∧
    parseNumber "abc" = JsNum.num 0 :=
  ⟨rfl, rfl, by decide, by decide, rfl⟩

/-- C5: the locations mapping splits on the literal '-' and trims each
segment when the field is present ("A-B - C" gives ["A","B","C"]),
but an absent locations field makes the transformer throw a TypeError
instead of returning the empty sequence. -/
theorem c5_locations_eval :
    transformRecord "f.csv"
        ⟨some "P1", some "S1", some "W", some "M", some "10", none,
         some "100,00", some "150,00", some "8471", some "DK"⟩
      = Except.error "TypeError: item.locations is undefined" ∧
    (transformRecord "f.csv"
        ⟨some "P1", some "S1", some "W", some "M", some "10", some "A-B - C",
         some "100,00", some "150,00", some "8471", some "DK"⟩).map ProductRecord.locations
      = Except.ok ["A", "B", "C"] :=
  ⟨rfl, rfl⟩

/-- C6 counterexample: the raw amount string "-5" is transformed into
the negative integer -5, refuting "integer greater than or equal
to 0". -/
theorem c6_amount_negative :
    amountOf (some "-5") = -5 ∧ amountOf (some "-5") < 0 := by
  decide

/-- C6 amended: the amount mapping never raises; it attempts a
parseInt base-10 parse (optional sign plus longest digit prefix) and
defaults to 0 on parse failure or field absence, so "7" gives 7 and
"x" gives 0; the result is nonnegative whenever the raw string does
not start with a minus sign after leading whitespace, while a leading
minus may produce a negative value. -/
theorem c6_amount_defaults :
    amountOf none = 0 ∧
    amountOf (some "7") = 7 ∧
    amountOf (some "x") = 0 ∧
    (∀ s, jsParseInt10 s = none → amountOf (some s) = 0) ∧
    (∀ s, (s.toList.dropWhile Char.isWhitespace).head? ≠ some '-' →
      0 ≤ amountOf (some s)) := by
  refine ⟨rfl, by decide, by decide, ?_, ?_⟩
  · intro s hs
    simp [amountOf, hs]
  · intro s hm
    have hneg : ((s.toList.dropWhile Char.isWhitespace).head? == some '-') = false :=
      beq_eq_false_iff_ne.2 hm
    simp only [amountOf, jsParseInt10, hneg]
    split <;> split <;> simp

/-- Witness for C6 amended: concrete defaulting and nonnegativity. -/
theorem c6_amount_defaults_witness :
    amountOf (some "x") = 0 ∧ 0 ≤ amountOf (some "12") :=
  ⟨c6_amount_defaults.2.2.1, c6_amount_defaults.2.2.2.2 "12" (by decide)⟩

/-- Shape of every effect trace the handler can produce: an invoice
upload never occurs after an archival move, and every folder listing
carries limit 10.  Proved by walking the branch structure of
`runWebhook`. -/
theorem runWebhook_effects_ok (env : WebhookEnv) (req : WebhookRequest) :
    uploadAfterMove (runWebhook env req).2 = false ∧
    ∀ p n, Effect.listFolder p n ∈ (runWebhook env req).2 → n = 10 := by
  unfold runWebhook
  rcases Bool.eq_false_or_eq_true (verifySignature env.appSecret req.rawBody req.signature)
    with hv | hv
  case inr => simp [hv, uploadAfterMove]
  rcases Bool.eq_false_or_eq_true env.listOk with hl | hl
  case inr => simp [hv, hl, uploadAfterMove, isMoveEff, isUploadEff]
  rcases hsel : selectNewestCsv (env.folderEntries.take 10) with _ | target
  · simp [hv, hl, hsel, uploadAfterMove, isMoveEff, isUploadEff]
  rcases hdl : env.downloadText target.path_display with _ | content
  · simp [hv, hl, hsel, hdl, uploadAfterMove, isMoveEff, isUploadEff]
  rcases hpr : env.parseRows content with _ | rows
  · simp [hv, hl, hsel, hdl, hpr, uploadAfterMove, isMoveEff, isUploadEff]
  rcases htr : transformAll target.name rows with e | products
  · simp [hv, hl, hsel, hdl, hpr, htr, uploadAfterMove, isMoveEff, isUploadEff]
  rcases products with _ | ⟨p0, tail⟩
  · rcases Bool.eq_false_or_eq_true env.moveOk with hm | hm <;>
      simp [hv, hl, hsel, hdl, hpr, htr, hm, uploadAfterMove, isMoveEff, isUploadEff]
  rcases Bool.eq_false_or_eq_true env.templateOk with ht | ht
  case inr => simp [hv, hl, hsel, hdl, hpr, htr, ht, uploadAfterMove, isMoveEff, isUploadEff]
  rcases Bool.eq_false_or_eq_true env.uploadOk with hu | hu
  case inr =>
    simp [hv, hl, hsel, hdl, hpr, htr, ht, hu, uploadAfterMove, isMoveEff, isUploadEff]
  rcases Bool.eq_false_or_eq_true env.moveOk with hm | hm <;>
    simp [hv, hl, hsel, hdl, hpr, htr, ht, hu, hm, uploadAfterMove, isMoveEff, isUploadEff]

/-- The comparator is transitive. -/
theorem newerFirst_trans (a b c : RemoteFileEntry) :
    newerFirst a b → newerFirst b c → newerFirst a c := by
  simp only [newerFirst, decide_eq_true_eq]
  omega

/-- The comparator is total. -/
theorem newerFirst_total (a b : RemoteFileEntry) :
    newerFirst a b || newerFirst b a := by
  simp only [newerFirst, Bool.or_eq_true, decide_eq_true_eq]
  omega

/-- Whatever the discovery step returns is one of the listed CSV file
entries. -/
theorem selectNewestCsv_mem {entries : List RemoteFileEntry} {e : RemoteFileEntry}
    (h : selectNewestCsv entries = some e) : e ∈ entries.filter isCsvFile := by
  unfold selectNewestCsv at h
  rcases List.head?_eq_some_iff.1 h with ⟨ys, hys⟩
  have hmem : e ∈ sortCsvFiles entries := by
    rw [hys]
    exact List.mem_cons_self _ _
  unfold sortCsvFiles at hmem
  exact List.mem_mergeSort.1 hmem

/-- C3: when some listed entry is a CSV file strictly more recent
than every other listed CSV file, the discovery step selects exactly
that entry; folder entries and non-csv names never win (case matters
not, the suffix test lowercases first). -/
theorem c3_selects_newest_csv (entries : List RemoteFileEntry) (e : RemoteFileEntry)
    (hmem : e ∈ entries) (hcsv : isCsvFile e = true)
    (hmax : ∀ e' ∈ entries, isCsvFile e' = true → e' ≠ e →
      e'.server_modified < e.server_modified) :
    selectNewestCsv entries = some e := by
  have hef : e ∈ entries.filter isCsvFile := List.mem_filter.2 ⟨hmem, hcsv⟩
  have hes : e ∈ sortCsvFiles entries := by
    unfold sortCsvFiles
    exact List.mem_mergeSort.2 hef
  have hsorted : (sortCsvFiles entries).Pairwise (fun a b => newerFirst a b) := by
    unfold sortCsvFiles
    exact List.sorted_mergeSort newerFirst_trans newerFirst_total _
  cases hs : sortCsvFiles entries with
  | nil =>
    rw [hs] at hes
    cases hes
  | cons a t =>
    have ha : a ∈ entries.filter isCsvFile := by
      have hmem2 : a ∈ sortCsvFiles entries := by
        rw [hs]
        exact List.mem_cons_self _ _
      unfold sortCsvFiles at hmem2
      exact List.mem_mergeSort.1 hmem2
    rw [hs] at hes hsorted
    unfold selectNewestCsv
    rw [hs]
    rcases List.mem_cons.1 hes with he | he
    · rw [he]
      rfl
    · by_cases hae : a = e
      · rw [hae]
        rfl
      · have h1 : newerFirst a e := (List.pairwise_cons.1 hsorted).1 e he
        have h2 : e.server_modified ≤ a.server_modified := by
          simpa [newerFirst] using h1
        have h3 := hmax a (List.mem_filter.1 ha).1 (List.mem_filter.1 ha).2 hae
        omega

/-- Witness for C3: among a folder entry, a stale CSV, a non-csv file
and the newest CSV (upper-case suffix), the newest CSV wins. -/
theorem c3_selects_newest_csv_witness :
    selectNewestCsv
        [⟨"file", "old.csv", 5, "/csv-filer/old.csv"⟩,
         ⟨"folder", "dir.csv", 90, "/csv-filer/dir.csv"⟩,
         ⟨"file", "note.txt", 80, "/csv-filer/note.txt"⟩,
         ⟨"file", "new.CSV", 7, "/csv-filer/new.CSV"⟩]
      = some ⟨"file", "new.CSV", 7, "/csv-filer/new.CSV"⟩ :=
  c3_selects_newest_csv _ _ (by decide) (by decide) (by decide)

/-- C10: the handler lists the input folder with limit 10 (every
listing effect it ever performs carries exactly that limit), and the
newest-CSV selection ranges only over the first 10 entries the store
returns: whatever it selects lies among those, so a CSV file outside
them is never chosen regardless of its timestamp. -/
theorem c10_limit_ten :
    (∀ (entries : List RemoteFileEntry) (e : RemoteFileEntry),
      selectNewestCsv (entries.take 10) = some e → e ∈ entries.take 10) ∧
    (∀ (env : WebhookEnv) (req : WebhookRequest) (p : String) (n : Nat),
      Effect.listFolder p n ∈ (runWebhook env req).2 → n = 10) := by
  constructor
  · intro entries e h
    exact (List.mem_filter.1 (selectNewestCsv_mem h)).1
  · intro env req p n h
    exact (runWebhook_effects_ok env req).2 p n h

unseal List.merge List.mergeSort in
/-- Witness for C10: a single-entry folder, whose entry the discovery
step selects, does lie within the first ten entries. -/
theorem c10_limit_ten_witness :
    (⟨"file", "a.csv", 1, "/csv-filer/a.csv"⟩ : RemoteFileEntry)
      ∈ ([⟨"file", "a.csv", 1, "/csv-filer/a.csv"⟩] : List RemoteFileEntry).take 10 :=
  c10_limit_ten.1 [⟨"file", "a.csv", 1, "/csv-filer/a.csv"⟩] _ (by decide)

set_option maxRecDepth 100000 in
unseal List.merge List.mergeSort in
/-- C8 counterexample: a concrete fully successful run (valid
signature, one CSV file, one well-formed row) answers 200 "Processing
complete" with an effect trace in which the invoice upload is later
followed by the archival move, so the archival move does not precede
the invoice step. -/
theorem c8_archive_not_before_invoice :
    moveAfterUpload (runWebhook envSuccess reqSuccess).2 = true ∧
    (runWebhook envSuccess reqSuccess).1 = ⟨200, "Processing complete"⟩ :=
  ⟨rfl, rfl⟩

/-- C8 amended: in every invocation the invoice generation and its
upload come before the archival move of the source CSV — after a move
effect no upload effect ever occurs, so INVOICED precedes ARCHIVED in
the step order. -/
theorem c8_invoice_before_archive (env : WebhookEnv) (req : WebhookRequest) :
    uploadAfterMove (runWebhook env req).2 = false :=
  (runWebhook_effects_ok env req).1

/-- A cell emitted for an optional field sits at its slot. -/
theorem optCell_mem {c r : Nat} {v : Option String} {w : CellWrite}
    (h : w ∈ optCell c r v) : w.col = c ∧ w.row = r := by
  cases v with
  | none => cases h
  | some s =>
    simp only [optCell, List.mem_singleton] at h
    simp [h]

/-- Every cell written for a product row sits at that row. -/
theorem productCells_row {r : Nat} {p : ProductRecord} {w : CellWrite}
    (h : w ∈ productCells r p) : w.row = r := by
  unfold productCells at h
  rcases List.mem_append.1 h with h | h
  · rcases List.mem_append.1 h with h | h
    · rcases List.mem_append.1 h with h | h
      · exact (optCell_mem h).2
      · exact (optCell_mem h).2
    · exact (optCell_mem h).2
  · simp only [List.mem_cons, List.mem_singleton] at h
    rcases h with rfl | rfl | h
    · rfl
    · rfl
    · cases h

/-- Below the starting row of the product block nothing is
written. -/
theorem productRowsFrom_filter_lt (c r : Nat) (ps : List ProductRecord) (r0 : Nat)
    (hlt : r < r0) :
    (productRowsFrom r0 ps).filter (fun w => w.col == c && w.row == r) = [] := by
  induction ps generalizing r0 with
  | nil => rfl
  | cons p ps ih =>
    unfold productRowsFrom
    rw [List.filter_append, ih (r0 + 1) (Nat.lt_succ_of_lt hlt), List.append_nil]
    refine List.filter_eq_nil_iff.2 ?_
    intro w hw
    have hrow := productCells_row hw
    simp only [Bool.and_eq_true, beq_iff_eq, hrow, not_and]
    intro _
    omega

/-- The writes landing in row `r0 + i` come exactly from the product
at index `i`. -/
theorem productRowsFrom_filter_get (c : Nat) (ps : List ProductRecord) (r0 i : Nat)
    (p : ProductRecord) (hget : ps.get? i = some p) :
    (productRowsFrom r0 ps).filter (fun w => w.col == c && w.row == (r0 + i)) =
      (productCells (r0 + i) p).filter (fun w => w.col == c && w.row == (r0 + i)) := by
  induction ps generalizing r0 i with
  | nil => cases hget
  | cons q ps ih =>
    cases i with
    | zero =>
      have hq : q = p := by simpa using hget
      subst hq
      simp only [Nat.add_zero]
      unfold productRowsFrom
      rw [List.filter_append,
        productRowsFrom_filter_lt c r0 ps (r0 + 1) (Nat.lt_succ_self r0),
        List.append_nil]
    | succ i =>
      unfold productRowsFrom
      rw [List.filter_append]
      have h1 : (productCells r0 q).filter
          (fun w => w.col == c && w.row == (r0 + (i + 1))) = [] := by
        refine List.filter_eq_nil_iff.2 ?_
        intro w hw
        have hrow := productCells_row hw
        simp only [Bool.and_eq_true, beq_iff_eq, hrow, not_and]
        intro _
        omega
      rw [h1, List.nil_append]
      have h2 := ih (r0 + 1) i (by simpa using hget)
      have hr : r0 + (i + 1) = r0 + 1 + i := by omega
      rw [hr]
      exact h2

/-- A slot at a different column contributes nothing to the filtered
writes. -/
theorem optCell_filter_ne (c cx r r' : Nat) (v : Option String) (hne : cx ≠ c) :
    (optCell cx r v).filter (fun w => w.col == c && w.row == r') = [] := by
  cases v <;> simp [optCell, beq_eq_false_iff_ne.2 hne]

/-- C7: for a non-empty product sequence, the invoice assembler
writes the customer name (the first product's fileName with one
trailing case-sensitive ".csv" stripped) into cell B5, and writes the
product at 0-based index `i` into spreadsheet row `13 + i`, placing
productId, style, productName, amount, rrp into columns A, B, C, E, F
while column D of that row is never written; row numbers follow input
order. -/
theorem c7_invoice_layout (p0 : ProductRecord) (rest : List ProductRecord) :
    cellAt (invoiceCellWrites (p0 :: rest)) 1 5
        = some (CellVal.str (stripCsvSuffix p0.fileName)) ∧
    ∀ i p, (p0 :: rest).get? i = some p →
      (∀ pid, p.productId = some pid →
        cellAt (invoiceCellWrites (p0 :: rest)) 0 (13 + i) = some (CellVal.str pid)) ∧
      (∀ st, p.style = some st →
        cellAt (invoiceCellWrites (p0 :: rest)) 1 (13 + i) = some (CellVal.str st)) ∧
      (∀ nm, p.productName = some nm →
        cellAt (invoiceCellWrites (p0 :: rest)) 2 (13 + i) = some (CellVal.str nm)) ∧
      cellAt (invoiceCellWrites (p0 :: rest)) 3 (13 + i) = none ∧
      cellAt (invoiceCellWrites (p0 :: rest)) 4 (13 + i) = some (CellVal.int p.amount) ∧
      cellAt (invoiceCellWrites (p0 :: rest)) 5 (13 + i) = some (CellVal.num p.rrp) := by
  have hwrites : invoiceCellWrites (p0 :: rest) =
      ⟨1, 5, CellVal.str (stripCsvSuffix p0.fileName)⟩ :: productRowsFrom 13 (p0 :: rest) := rfl
  constructor
  · rw [hwrites]
    unfold cellAt
    rw [List.filter_cons_of_pos (by rfl),
      productRowsFrom_filter_lt 1 5 (p0 :: rest) 13 (by omega)]
    rfl
  · intro i p hget
    have hrows : ∀ c : Nat, cellAt (invoiceCellWrites (p0 :: rest)) c (13 + i) =
        ((List.filter (fun w => w.col == c && w.row == (13 + i))
          (productCells (13 + i) p)).getLast?).map CellWrite.val := by
      intro c
      rw [hwrites]
      unfold cellAt
      rw [List.filter_cons_of_neg]
      · rw [productRowsFrom_filter_get c (p0 :: rest) 13 i p hget]
      · intro hc
        simp only [Bool.and_eq_true, beq_iff_eq] at hc
        omega
    refine ⟨?_, ?_, ?_, ?_, ?_, ?_⟩
    · intro pid hpid
      rw [hrows 0]
      unfold productCells
      rw [hpid, List.filter_append, List.filter_append, List.filter_append,
        optCell_filter_ne 0 1 (13 + i) (13 + i) p.style (by omega),
        optCell_filter_ne 0 2 (13 + i) (13 + i) p.productName (by omega)]
      simp [optCell]
    · intro st hst
      rw [hrows 1]
      unfold productCells
      rw [hst, List.filter_append, List.filter_append, List.filter_append,
        optCell_filter_ne 1 0 (13 + i) (13 + i) p.productId (by omega),
        optCell_filter_ne 1 2 (13 + i) (13 + i) p.productName (by omega)]
      simp [optCell]
    · intro nm hnm
      rw [hrows 2]
      unfold productCells
      rw [hnm, List.filter_append, List.filter_append, List.filter_append,
        optCell_filter_ne 2 0 (13 + i) (13 + i) p.productId (by omega),
        optCell_filter_ne 2 1 (13 + i) (13 + i) p.style (by omega)]
      simp [optCell]
    · rw [hrows 3]
      unfold productCells
      rw [List.filter_append, List.filter_append, List.filter_append,
        optCell_filter_ne 3 0 (13 + i) (13 + i) p.productId (by omega),
        optCell_filter_ne 3 1 (13 + i) (13 + i) p.style (by omega),
        optCell_filter_ne 3 2 (13 + i) (13 + i) p.productName (by omega)]
      simp
    · rw [hrows 4]
      unfold productCells
      rw [List.filter_append, List.filter_append, List.filter_append,
        optCell_filter_ne 4 0 (13 + i) (13 + i) p.productId (by omega),
        optCell_filter_ne 4 1 (13 + i) (13 + i) p.style (by omega),
        optCell_filter_ne 4 2 (13 + i) (13 + i) p.productName (by omega)]
      simp
    · rw [hrows 5]
      unfold productCells
      rw [List.filter_append, List.filter_append, List.filter_append,
        optCell_filter_ne 5 0 (13 + i) (13 + i) p.productId (by omega),
        optCell_filter_ne 5 1 (13 + i) (13 + i) p.style (by omega),
        optCell_filter_ne 5 2 (13 + i) (13 + i) p.productName (by omega)]
      simp

/-- Witness for C7 at one concrete product. -/
theorem c7_invoice_layout_witness :
    cellAt (invoiceCellWrites [prodW]) 1 5 = some (CellVal.str "Customer") ∧
    cellAt (invoiceCellWrites [prodW]) 0 13 = some (CellVal.str "P1") ∧
    cellAt (invoiceCellWrites [prodW]) 3 13 = none ∧
    cellAt (invoiceCellWrites [prodW]) 4 13 = some (CellVal.int 10) :=
  ⟨(c7_invoice_layout prodW []).1,
   ((c7_invoice_layout prodW []).2 0 prodW rfl).1 "P1" rfl,
   ((c7_invoice_layout prodW []).2 0 prodW rfl).2.2.2.1,
   ((c7_invoice_layout prodW []).2 0 prodW rfl).2.2.2.2.1⟩

end Faktura
